import Mathlib

/-!
Verification of the cross-chain message lane and routing protocol of the
bridge-hub runtimes. The observable behaviour is fixed by the test scenarios in
cumulus/parachains/runtimes/bridge-hubs/test-utils/src/test_cases/mod.rs and by
the storage-access declarations in
cumulus/parachains/runtimes/assets/asset-hub-westend/src/weights/pallet_xcm_bridge_hub_router.rs.
The lane-ledger, router and dispatcher cores (bp_messages, pallet_bridge_messages,
the DispatchBlob implementation of xcm_builder and the xcm_executor) are not part
of the shown sources; where a definition models such a missing component, its doc
comment says so and names the section of the design document it follows.
-/

namespace BridgeHub

abbrev LaneId := Nat

/-- Nonces are u64 counters in the source; the ledger checks, rather than wraps,
at this bound. -/
def u64Max : Nat := 2 ^ 64 - 1

/-- Per-lane outbound counters, as asserted by
`handle_export_message_from_system_parachain_to_outbound_queue_works`
(bp_messages::OutboundLaneData). -/
structure OutboundLaneData where
  oldest_unpruned_nonce : Nat
  latest_received_nonce : Nat
  latest_generated_nonce : Nat
deriving Repr, DecidableEq

/-- The counters a lane with no stored record behaves as: first assigned nonce is 1. -/
def OutboundLaneData.fresh : OutboundLaneData := ⟨1, 0, 0⟩

/-- One lane of the ledger: an optional stored record (a fresh lane has none,
the test asserts `OutboundLanes::try_get = Err(())` before the first enqueue)
plus the retained payloads, keyed by nonce. -/
structure LaneState where
  record : Option OutboundLaneData
  stored : List (Nat × List Nat)
deriving Repr, DecidableEq

def LaneState.fresh : LaneState := ⟨none, []⟩

/-- The counters in effect for a lane: the stored record, or the fresh defaults. -/
def LaneState.data (st : LaneState) : OutboundLaneData :=
  st.record.getD OutboundLaneData.fresh

/-- Events observed by the tests: one per enqueue, one per upward forward,
one per horizontal forward. -/
inductive RuntimeEvent where
  | MessageAccepted (lane : LaneId) (nonce : Nat)
  | UpwardMessageSent
  | XcmpMessageSent (sibling : Nat)
deriving Repr, DecidableEq

inductive LedgerError where
  | LaneOverflow
deriving Repr, DecidableEq

structure EnqueueOk where
  nonce : Nat
  state : LaneState
  events : List RuntimeEvent
deriving Repr, DecidableEq

/-- Modelled from the spec: section 4.1, `enqueue_outbound(lane, payload) -> nonce`
of the Lane Ledger, whose implementation (bp_messages outbound lane) is not among
the shown sources. It assigns `latest_generated_nonce + 1`, stores the payload for
later delivery, advances the counter, and fails with `LaneOverflow` if the counter
would wrap; section 6 has it emit one `MessageAccepted` event per enqueue. -/
def enqueue_outbound (lane : LaneId) (payload : List Nat) (st : LaneState) :
    Except LedgerError EnqueueOk :=
  let d := st.data
  if u64Max ≤ d.latest_generated_nonce then .error .LaneOverflow
  else
    let nonce := d.latest_generated_nonce + 1
    .ok ⟨nonce,
      ⟨some { d with latest_generated_nonce := nonce }, st.stored ++ [(nonce, payload)]⟩,
      [.MessageAccepted lane nonce]⟩

inductive ConfirmOutcome where
  | Confirmed
  | StaleConfirmation
  | FutureConfirmation
deriving Repr, DecidableEq

/-- Modelled from the spec: section 4.1, `record_delivery_confirmation(lane, up_to_nonce)`.
It advances `latest_received_nonce` monotonically and rejects as a no-op, reported
`StaleConfirmation`, a confirmation not greater than the current value. A confirmation
beyond `latest_generated_nonce` is the protocol violation of section 7 (a misbehaving
transport confirming messages never generated) and is likewise a state no-op, so that
the section 3 counter invariant is preserved. -/
def record_delivery_confirmation (up_to : Nat) (st : LaneState) :
    ConfirmOutcome × LaneState :=
  let d := st.data
  if up_to ≤ d.latest_received_nonce then (.StaleConfirmation, st)
  else if d.latest_generated_nonce < up_to then (.FutureConfirmation, st)
  else (.Confirmed, { st with record := some { d with latest_received_nonce := up_to } })

/-- Modelled from the spec: section 4.1, `prune(lane, up_to_nonce)`. It advances
`oldest_unpruned_nonce` and discards stored payloads at or below that nonce, never
pruning beyond `latest_received_nonce`; a stale request is a no-op. -/
def prune (up_to : Nat) (st : LaneState) : LaneState :=
  let d := st.data
  let target := min up_to d.latest_received_nonce
  if target + 1 ≤ d.oldest_unpruned_nonce then st
  else
    { record := some { d with oldest_unpruned_nonce := target + 1 },
      stored := st.stored.filter (fun p => decide (target < p.1)) }

/-- A ledger operation on one lane, for stating the counter invariant over
arbitrary operation sequences. -/
inductive LedgerOp where
  | enqueue (lane : LaneId) (payload : List Nat)
  | confirm (up_to : Nat)
  | pruneUpTo (up_to : Nat)

def applyOp (st : LaneState) (op : LedgerOp) : LaneState :=
  match op with
  | .enqueue lane payload =>
    match enqueue_outbound lane payload st with
    | .ok r => r.state
    | .error _ => st
  | .confirm n => (record_delivery_confirmation n st).2
  | .pruneUpTo n => prune n st

def runOps (st : LaneState) (ops : List LedgerOp) : LaneState :=
  ops.foldl applyOp st

/-- The section 3 invariant on the outbound counters. -/
def laneInvariant (d : OutboundLaneData) : Prop :=
  d.oldest_unpruned_nonce ≤ d.latest_received_nonce + 1 ∧
  d.latest_received_nonce + 1 ≤ d.latest_generated_nonce + 1

/-- Repeated enqueue on one lane, collecting the assigned nonces; `none` if any
enqueue fails. -/
def enqueueN (lane : LaneId) (payload : List Nat) : Nat → LaneState →
    Option (List Nat × LaneState)
  | 0, st => some ([], st)
  | n + 1, st =>
    match enqueue_outbound lane payload st with
    | .error _ => none
    | .ok r =>
      match enqueueN lane payload n r.state with
      | none => none
      | some (ns, st1) => some (r.nonce :: ns, st1)

/-- Modelled from the spec: section 9, the closed destination type over
parent, sibling, remote network and a malformed shape. -/
inductive Destination where
  | parent
  | sibling (id : Nat)
  | remoteNetwork (id : Nat)
  | malformed
deriving Repr, DecidableEq

/-- A concrete delivery channel: upward (UMP, to the relay chain) or horizontal
(HRMP/XCMP, to a sibling parachain). -/
inductive Channel where
  | upward
  | horizontal (id : Nat)
deriving Repr, DecidableEq

inductive RoutingFailure where
  | RoutingError
deriving Repr, DecidableEq

/-- Admission state of the horizontal channels: the set of sibling parachain ids
whose HRMP channel has been opened (the test flips it with `mock_open_hrmp_channel`). -/
structure RouterState where
  openChannels : List Nat
deriving Repr, DecidableEq

/-- Modelled from the spec: section 4.3, `resolve_and_admit(destination)`.
A parent destination resolves to the upward channel with no admission check; a
sibling destination resolves to its horizontal channel only if that channel is
open, else `RoutingError`; everything else is `RoutingError` for direct routing. -/
def resolve_and_admit (rs : RouterState) : Destination → Except RoutingFailure Channel
  | .parent => .ok .upward
  | .sibling i =>
    if i ∈ rs.openChannels then .ok (.horizontal i) else .error .RoutingError
  | .remoteNetwork _ => .error .RoutingError
  | .malformed => .error .RoutingError

structure MessageKey where
  lane_id : LaneId
  nonce : Nat
deriving Repr, DecidableEq

inductive DispatchBlobFailure where
  | RoutingError
  | InvalidEncoding
deriving Repr, DecidableEq

/-- Dispatch outcome as asserted by `message_dispatch_routing_works`
(bridge_runtime_common::messages_xcm_extension::XcmBlobMessageDispatchResult). -/
inductive XcmBlobMessageDispatchResult where
  | Dispatched
  | NotDispatched (reason : Option DispatchBlobFailure)
deriving Repr, DecidableEq

/-- An inbound message handed to the dispatcher
(bp_messages::target_chain::DispatchMessage): its lane/nonce key and the decoded
payload, `none` standing for a payload whose decoding failed. -/
structure DispatchMessage where
  key : MessageKey
  payload : Option Destination
deriving Repr, DecidableEq

/-- Modelled from the spec: section 4.4, `dispatch(message)` of the Dispatcher,
whose implementation (the MessageDispatch configured from the DispatchBlob of
xcm_builder) is not among the shown sources. Decode failure gives
`NotDispatched(InvalidEncoding)`; a failed admission gives
`NotDispatched(RoutingError)` and forwards nothing; an admitted message is handed
to the resolved channel, returning `Dispatched` and emitting the corresponding
forward event (`UpwardMessageSent` upward, `XcmpMessageSent` horizontal). -/
def dispatch (rs : RouterState) (msg : DispatchMessage) :
    XcmBlobMessageDispatchResult × List RuntimeEvent :=
  match msg.payload with
  | none => (.NotDispatched (some .InvalidEncoding), [])
  | some dest =>
    match resolve_and_admit rs dest with
    | .error .RoutingError => (.NotDispatched (some .RoutingError), [])
    | .ok .upward => (.Dispatched, [.UpwardMessageSent])
    | .ok (.horizontal i) => (.Dispatched, [.XcmpMessageSent i])

/-- Opening the HRMP channel towards a sibling, as `mock_open_hrmp_channel` does
in the test: it flips the admission state of that horizontal channel. -/
def open_hrmp_channel (rs : RouterState) (sibling : Nat) : RouterState :=
  ⟨sibling :: rs.openChannels⟩

def countXcmpMessageSent (evs : List RuntimeEvent) : Nat :=
  (evs.filter fun e =>
    match e with
    | .XcmpMessageSent _ => true
    | _ => false).length

def countUpwardMessageSent (evs : List RuntimeEvent) : Nat :=
  (evs.filter fun e =>
    match e with
    | .UpwardMessageSent => true
    | _ => false).length

/-- Modelled from the spec: section 3, the InboundLane state — the per-lane
high-water mark of the last nonce successfully dispatched, not among the shown
sources (it lives in the inbound half of pallet_bridge_messages, above the
MessageDispatch delegate the test calls directly). -/
structure InboundLaneState where
  last_dispatched_nonce : Nat
deriving Repr, DecidableEq

inductive ReceivalOutcome where
  | Rejected
  | Processed (result : XcmBlobMessageDispatchResult) (events : List RuntimeEvent)
deriving Repr, DecidableEq

/-- Modelled from the spec: the inbound-lane layer receiving one message. A nonce
not greater than the high-water mark is a duplicate or out-of-order replay and is
rejected without reaching the dispatch delegate; otherwise the message is
dispatched and the mark advances on a successful dispatch. -/
def receive_message (rs : RouterState) (ils : InboundLaneState) (msg : DispatchMessage) :
    ReceivalOutcome × InboundLaneState :=
  if msg.key.nonce ≤ ils.last_dispatched_nonce then (.Rejected, ils)
  else
    let r := dispatch rs msg
    (.Processed r.1 r.2,
      if r.1 = .Dispatched then ⟨msg.key.nonce⟩ else ils)

/-- The XCM instructions the export test programs use: the unpaid branch is
`[UnpaidExecution, ExportMessage]`, the paid branch
`[WithdrawAsset, BuyExecution, ExportMessage]`
(handle_export_message_from_system_parachain_to_outbound_queue_works). -/
inductive XcmInstruction where
  | UnpaidExecution
  | WithdrawAsset (amount : Nat)
  | BuyExecution (amount : Nat)
  | ExportMessage (network : Nat) (inner : List Nat)
deriving Repr, DecidableEq

/-- The origin kinds the export test distinguishes: a sibling system parachain
(the test executes as `MultiLocation::new(1, Parachain(sibling_parachain_id))`)
or anything else. -/
inductive XcmOriginKind where
  | SiblingSystemParachain (id : Nat)
  | Other
deriving Repr, DecidableEq

/-- Modelled from the spec: the admission barrier of the executor (not among the
shown sources). The test documents that for system parachains unpaid execution is
expected, so a program that opens with `UnpaidExecution` is admitted from a
sibling system parachain; a program that opens by buying execution with withdrawn
fees is admitted from anyone (section 4.5, the caller pre-pays via a separate
buy-execution step). -/
def barrier_allows (origin : XcmOriginKind) (program : List XcmInstruction) : Bool :=
  match program with
  | .UnpaidExecution :: _ =>
    match origin with
    | .SiblingSystemParachain _ => true
    | .Other => false
  | .WithdrawAsset _ :: .BuyExecution _ :: _ => true
  | _ => false

inductive XcmError where
  | BarrierBlocked
  | ExportFailed
deriving Repr, DecidableEq

/-- Modelled from the spec: section 4.5, the Export Encoder. It wraps the inner
program, selects the outbound lane keyed by the destination network, and hands it
to the Lane Ledger enqueue. -/
def export_message (network : Nat) (inner : List Nat) (st : LaneState) :
    Except LedgerError EnqueueOk :=
  enqueue_outbound network inner st

/-- Modelled from the spec: the execution engine evaluating an outbound program
(section 2 control flow). If the barrier admits the program, instructions run in
order over the lane state; an `ExportMessage` goes through the Export Encoder to
the ledger. Fee instructions do not touch lane state: no re-pricing happens at
enqueue time (section 4.5). -/
def execute_xcm (origin : XcmOriginKind) (program : List XcmInstruction) (st : LaneState) :
    Except XcmError (LaneState × List RuntimeEvent) :=
  if barrier_allows origin program then
    program.foldlM
      (fun acc i =>
        match i with
        | .ExportMessage network inner =>
          match export_message network inner acc.1 with
          | .error _ => .error .ExportFailed
          | .ok r => .ok (r.state, acc.2 ++ r.events)
        | _ => .ok acc)
      (st, [])
  else .error .BarrierBlocked

/-- One storage item of a benchmarked call, with its declared read and write
counts, transcribed from the proof annotations of
asset-hub-westend/src/weights/pallet_xcm_bridge_hub_router.rs. -/
structure StorageAccess where
  storage : String
  reads : Nat
  writes : Nat
deriving Repr, DecidableEq

/-- Storage accesses declared on `WeightInfo::send_message`. -/
def send_message_storage : List StorageAccess :=
  [⟨"PolkadotXcm::SupportedVersion", 2, 0⟩,
   ⟨"ParachainInfo::ParachainId", 1, 0⟩,
   ⟨"UNKNOWN KEY 0x3302afcb67e838a3f960251b417b9a4f", 1, 0⟩,
   ⟨"UNKNOWN KEY 0x0973fe64c85043ba1c965cbc38eb63c7", 1, 0⟩,
   ⟨"ToRococoXcmRouter::Bridge", 1, 1⟩,
   ⟨"XcmpQueue::DeliveryFeeFactor", 1, 0⟩,
   ⟨"PolkadotXcm::VersionDiscoveryQueue", 1, 1⟩,
   ⟨"PolkadotXcm::SafeXcmVersion", 1, 0⟩,
   ⟨"ParachainSystem::RelevantMessagingState", 1, 0⟩,
   ⟨"XcmpQueue::OutboundXcmpStatus", 1, 1⟩,
   ⟨"XcmpQueue::InboundXcmpSuspended", 1, 0⟩,
   ⟨"XcmpQueue::OutboundXcmpMessages", 0, 1⟩]

/-- Storage accesses declared on `WeightInfo::on_initialize_when_non_congested`. -/
def on_initialize_when_non_congested_storage : List StorageAccess :=
  [⟨"XcmpQueue::InboundXcmpSuspended", 1, 0⟩,
   ⟨"XcmpQueue::OutboundXcmpStatus", 1, 0⟩,
   ⟨"ToRococoXcmRouter::Bridge", 1, 1⟩]

/-- Storage accesses declared on `WeightInfo::on_initialize_when_congested`. -/
def on_initialize_when_congested_storage : List StorageAccess :=
  [⟨"XcmpQueue::InboundXcmpSuspended", 1, 0⟩,
   ⟨"XcmpQueue::OutboundXcmpStatus", 1, 0⟩]

/-- Storage accesses declared on `WeightInfo::report_bridge_status`. -/
def report_bridge_status_storage : List StorageAccess :=
  [⟨"ToRococoXcmRouter::Bridge", 1, 1⟩]

def readsOf (l : List StorageAccess) (s : String) : Nat :=
  (l.filter fun a => decide (a.storage = s)).foldl (fun n a => n + a.reads) 0

def writesOf (l : List StorageAccess) (s : String) : Nat :=
  (l.filter fun a => decide (a.storage = s)).foldl (fun n a => n + a.writes) 0

def totalReads (l : List StorageAccess) : Nat :=
  l.foldl (fun n a => n + a.reads) 0

def totalWrites (l : List StorageAccess) : Nat :=
  l.foldl (fun n a => n + a.writes) 0

/-- A benchmark weight, as a pair of execution time (picoseconds) and proof size
(bytes), with the database read and write costs left as parameters. -/
structure Weight where
  refTime : Nat
  proofSize : Nat
deriving Repr, DecidableEq

/-- The body of `WeightInfo::send_message`: base parts (66_901_000, 0) plus
(0, 6427) plus 12 database reads plus 4 database writes. -/
def send_message_weight (dbRead dbWrite : Nat) : Weight :=
  ⟨66901000 + 12 * dbRead + 4 * dbWrite, 6427⟩

@[simp]
theorem LaneState.fresh_data : LaneState.fresh.data = ⟨1, 0, 0⟩ := rfl

@[simp]
theorem LaneState.data_mk_some (d : OutboundLaneData) (s : List (Nat × List Nat)) :
    LaneState.data ⟨some d, s⟩ = d := rfl

theorem enqueue_outbound_eq_error (lane : LaneId) (payload : List Nat) (st : LaneState)
    (o rv g : Nat) (hd : st.data = ⟨o, rv, g⟩) (h : u64Max ≤ g) :
    enqueue_outbound lane payload st = .error .LaneOverflow := by
  simp only [enqueue_outbound, hd]
  rw [if_pos h]

theorem enqueue_outbound_eq_ok (lane : LaneId) (payload : List Nat) (st : LaneState)
    (o rv g : Nat) (hd : st.data = ⟨o, rv, g⟩) (h : ¬ u64Max ≤ g) :
    enqueue_outbound lane payload st =
      .ok ⟨g + 1, ⟨some ⟨o, rv, g + 1⟩, st.stored ++ [(g + 1, payload)]⟩,
        [.MessageAccepted lane (g + 1)]⟩ := by
  simp only [enqueue_outbound, hd]
  rw [if_neg h]

theorem record_delivery_confirmation_stale (st : LaneState) (o rv g n : Nat)
    (hd : st.data = ⟨o, rv, g⟩) (hc : n ≤ rv) :
    record_delivery_confirmation n st = (.StaleConfirmation, st) := by
  simp only [record_delivery_confirmation, hd]
  rw [if_pos hc]

theorem record_delivery_confirmation_future (st : LaneState) (o rv g n : Nat)
    (hd : st.data = ⟨o, rv, g⟩) (hc1 : ¬ n ≤ rv) (hc2 : g < n) :
    record_delivery_confirmation n st = (.FutureConfirmation, st) := by
  simp only [record_delivery_confirmation, hd]
  rw [if_neg hc1, if_pos hc2]

theorem record_delivery_confirmation_advances (st : LaneState) (o rv g n : Nat)
    (hd : st.data = ⟨o, rv, g⟩) (hc1 : ¬ n ≤ rv) (hc2 : ¬ g < n) :
    record_delivery_confirmation n st = (.Confirmed, ⟨some ⟨o, n, g⟩, st.stored⟩) := by
  simp only [record_delivery_confirmation, hd]
  rw [if_neg hc1, if_neg hc2]

theorem prune_stale (st : LaneState) (o rv g n : Nat)
    (hd : st.data = ⟨o, rv, g⟩) (hc : min n rv + 1 ≤ o) :
    prune n st = st := by
  simp only [prune, hd]
  rw [if_pos hc]

theorem prune_advances (st : LaneState) (o rv g n : Nat)
    (hd : st.data = ⟨o, rv, g⟩) (hc : ¬ min n rv + 1 ≤ o) :
    prune n st =
      ⟨some ⟨min n rv + 1, rv, g⟩,
       st.stored.filter (fun p => decide (min n rv < p.1))⟩ := by
  simp only [prune, hd]
  rw [if_neg hc]

theorem laneInvariant_applyOp (st : LaneState) (op : LedgerOp)
    (h : laneInvariant st.data) : laneInvariant (applyOp st op).data := by
  rcases hd : st.data with ⟨o, rv, g⟩
  have h12 : o ≤ rv + 1 ∧ rv + 1 ≤ g + 1 := by
    have hcopy := h
    rw [hd] at hcopy
    simpa [laneInvariant] using hcopy
  obtain ⟨h1, h2⟩ := h12
  cases op with
  | enqueue lane payload =>
    by_cases hg : u64Max ≤ g
    · simp only [applyOp, enqueue_outbound_eq_error lane payload st o rv g hd hg]
      exact h
    · simp only [applyOp, enqueue_outbound_eq_ok lane payload st o rv g hd hg,
        LaneState.data_mk_some, laneInvariant]
      omega
  | confirm n =>
    by_cases hc1 : n ≤ rv
    · simp only [applyOp, record_delivery_confirmation_stale st o rv g n hd hc1]
      exact h
    · by_cases hc2 : g < n
      · simp only [applyOp, record_delivery_confirmation_future st o rv g n hd hc1 hc2]
        exact h
      · simp only [applyOp, record_delivery_confirmation_advances st o rv g n hd hc1 hc2,
          LaneState.data_mk_some, laneInvariant]
        omega
  | pruneUpTo n =>
    by_cases hc : min n rv + 1 ≤ o
    · simp only [applyOp, prune_stale st o rv g n hd hc]
      exact h
    · simp only [applyOp, prune_advances st o rv g n hd hc,
        LaneState.data_mk_some, laneInvariant]
      omega

theorem enqueueN_spec (lane : LaneId) (payload : List Nat) :
    ∀ (n : Nat) (st : LaneState) (o rv g : Nat),
      st.data = ⟨o, rv, g⟩ → g + n ≤ u64Max →
      ∃ st1 : LaneState,
        enqueueN lane payload n st = some (List.range' (g + 1) n, st1) ∧
        st1.data = ⟨o, rv, g + n⟩ := by
  intro n
  induction n with
  | zero =>
    intro st o rv g hd _
    exact ⟨st, rfl, by simpa using hd⟩
  | succ n ih =>
    intro st o rv g hd hle
    have hg : ¬ u64Max ≤ g := by omega
    have hstep := enqueue_outbound_eq_ok lane payload st o rv g hd hg
    obtain ⟨st1, hrun, hdata⟩ :=
      ih ⟨some ⟨o, rv, g + 1⟩, st.stored ++ [(g + 1, payload)]⟩ o rv (g + 1) rfl (by omega)
    refine ⟨st1, ?_, ?_⟩
    · simp only [enqueueN, hstep, hrun]
      rw [List.range'_succ]
    · rw [hdata]
      simp only [OutboundLaneData.mk.injEq]
      exact ⟨trivial, trivial, by omega⟩

/-- Claim C1: an inbound message whose decoded destination is a sibling parachain
whose horizontal channel has not been opened is dispatched as
`NotDispatched(RoutingError)` and emits zero forward (`XcmpMessageSent`) events,
as asserted by step 2.1 of `message_dispatch_routing_works`. -/
theorem c1_unopened_sibling_routing_error (rs : RouterState) (lane : LaneId)
    (nonce : Nat) (i : Nat) (h : i ∉ rs.openChannels) :
    dispatch rs ⟨⟨lane, nonce⟩, some (.sibling i)⟩ =
      (.NotDispatched (some .RoutingError), []) ∧
    countXcmpMessageSent (dispatch rs ⟨⟨lane, nonce⟩, some (.sibling i)⟩).2 = 0 := by
  constructor <;> simp [dispatch, resolve_and_admit, h, countXcmpMessageSent]

/-- Witness for C1: sibling 42 with no channel open, lane 0, nonce 1, exactly
the inputs of step 2.1 of the test. -/
theorem c1_unopened_sibling_routing_error_witness :
    dispatch ⟨[]⟩ ⟨⟨0, 1⟩, some (.sibling 42)⟩ =
      (.NotDispatched (some .RoutingError), []) ∧
    countXcmpMessageSent (dispatch ⟨[]⟩ ⟨⟨0, 1⟩, some (.sibling 42)⟩).2 = 0 :=
  c1_unopened_sibling_routing_error ⟨[]⟩ 0 1 42 (by decide)

/-- Claim C2: a message to a sibling that was rejected with `RoutingError` while
the channel was closed is, after the horizontal channel to that sibling is
opened, redelivered at the same key with result `Dispatched` and exactly one
forward (`XcmpMessageSent`) event, as asserted by step 2.2 of
`message_dispatch_routing_works`. -/
theorem c2_opened_sibling_redelivery_dispatched (rs : RouterState) (lane : LaneId)
    (nonce : Nat) (i : Nat) (h : i ∉ rs.openChannels) :
    (dispatch rs ⟨⟨lane, nonce⟩, some (.sibling i)⟩).1 =
      .NotDispatched (some .RoutingError) ∧
    dispatch (open_hrmp_channel rs i) ⟨⟨lane, nonce⟩, some (.sibling i)⟩ =
      (.Dispatched, [.XcmpMessageSent i]) ∧
    countXcmpMessageSent
      (dispatch (open_hrmp_channel rs i) ⟨⟨lane, nonce⟩, some (.sibling i)⟩).2 = 1 := by
  refine ⟨?_, ?_, ?_⟩ <;>
    simp [dispatch, resolve_and_admit, open_hrmp_channel, h, countXcmpMessageSent]

/-- Witness for C2: sibling 42, lane 0, nonce 1, closed then opened. -/
theorem c2_opened_sibling_redelivery_dispatched_witness :
    (dispatch ⟨[]⟩ ⟨⟨0, 1⟩, some (.sibling 42)⟩).1 =
      .NotDispatched (some .RoutingError) ∧
    dispatch (open_hrmp_channel ⟨[]⟩ 42) ⟨⟨0, 1⟩, some (.sibling 42)⟩ =
      (.Dispatched, [.XcmpMessageSent 42]) ∧
    countXcmpMessageSent
      (dispatch (open_hrmp_channel ⟨[]⟩ 42) ⟨⟨0, 1⟩, some (.sibling 42)⟩).2 = 1 :=
  c2_opened_sibling_redelivery_dispatched ⟨[]⟩ 0 1 42 (by decide)

/-- Claim C3: an inbound message whose decoded destination is the relay chain of
this chain (one parent hop, no further interior) resolves to the upward channel,
admission succeeds with no open/closed precondition (any router state), the
result is `Dispatched`, and an `UpwardMessageSent` event is emitted, as asserted
by step 1 of `message_dispatch_routing_works`. -/
theorem c3_parent_destination_dispatched_upward (rs : RouterState) (lane : LaneId)
    (nonce : Nat) :
    resolve_and_admit rs .parent = .ok .upward ∧
    dispatch rs ⟨⟨lane, nonce⟩, some .parent⟩ = (.Dispatched, [.UpwardMessageSent]) ∧
    countUpwardMessageSent (dispatch rs ⟨⟨lane, nonce⟩, some .parent⟩).2 = 1 :=
  ⟨rfl, rfl, rfl⟩

/-- Claim C4: on a fresh lane (no stored record), a sequence of n enqueues
returns the nonces 1, 2, ..., n and leaves the counters
`OutboundLaneData (oldest_unpruned_nonce 1) (latest_received_nonce 0)
(latest_generated_nonce n)`; in particular one successful `ExportMessage`, going
through the Export Encoder, leaves the counters at 1, 0, 1, as asserted by
`handle_export_message_from_system_parachain_to_outbound_queue_works`. The
counter-overflow check bounds n by the u64 maximum. -/
theorem c4_fresh_lane_nonces_strictly_increasing (lane : LaneId) (payload : List Nat)
    (net : Nat) (inner : List Nat) (n : Nat) (h : n ≤ u64Max) :
    (∃ st1 : LaneState,
       enqueueN lane payload n LaneState.fresh = some (List.range' 1 n, st1) ∧
       st1.data = ⟨1, 0, n⟩) ∧
    ∃ r : EnqueueOk,
      export_message net inner LaneState.fresh = .ok r ∧
      r.nonce = 1 ∧ r.state.data = ⟨1, 0, 1⟩ := by
  constructor
  · obtain ⟨st1, hrun, hdata⟩ :=
      enqueueN_spec lane payload n LaneState.fresh 1 0 0 rfl (by omega)
    exact ⟨st1, by simpa using hrun, by simpa using hdata⟩
  · refine ⟨_, enqueue_outbound_eq_ok net inner LaneState.fresh 1 0 0 rfl ?_, rfl, rfl⟩
    simp [u64Max]

/-- Witness for C4: three enqueues on the fresh lane 0 yield nonces 1, 2, 3 and
counters 1, 0, 3 (scenario A of the design document), and a fresh export yields
nonce 1 and counters 1, 0, 1. -/
theorem c4_fresh_lane_nonces_strictly_increasing_witness :
    3 ≤ u64Max ∧
    ((∃ st1 : LaneState,
        enqueueN 0 [] 3 LaneState.fresh = some (List.range' 1 3, st1) ∧
        st1.data = ⟨1, 0, 3⟩) ∧
     ∃ r : EnqueueOk,
       export_message 7 [5] LaneState.fresh = .ok r ∧
       r.nonce = 1 ∧ r.state.data = ⟨1, 0, 1⟩) :=
  ⟨by simp [u64Max], c4_fresh_lane_nonces_strictly_increasing 0 [] 7 [5] 3 (by simp [u64Max])⟩

/-- Claim C5 counterexample: the dispatch delegate keeps no per-lane high-water
mark. In the very scenario of `message_dispatch_routing_works`, nonce 1 on the
one lane is successfully dispatched (to the parent) and a later message carrying
the same lane and the same nonce 1 (to open sibling 42) is dispatched again,
rather than rejected as a duplicate. -/
theorem c5_dispatcher_redispatches_duplicate_nonce_counterexample :
    (dispatch (open_hrmp_channel ⟨[]⟩ 42) ⟨⟨0, 1⟩, some .parent⟩).1 =
      .Dispatched ∧
    (dispatch (open_hrmp_channel ⟨[]⟩ 42) ⟨⟨0, 1⟩, some (.sibling 42)⟩).1 =
      .Dispatched := by
  constructor <;> rfl

/-- Claim C5 as amended: the per-lane high-water mark of the last successfully
dispatched nonce is kept by the inbound-lane layer above the dispatch delegate;
that layer rejects an inbound message whose nonce is not greater than the mark,
so duplicates and out-of-order replays of an already-dispatched nonce are not
handed to the dispatcher again. -/
theorem c5_inbound_lane_rejects_replayed_nonce (rs : RouterState)
    (ils : InboundLaneState) (msg : DispatchMessage)
    (h : msg.key.nonce ≤ ils.last_dispatched_nonce) :
    receive_message rs ils msg = (.Rejected, ils) := by
  simp [receive_message, h]

/-- Witness for the amended C5: with high-water mark 3, redelivery of nonce 2 is
rejected and the mark is unchanged. -/
theorem c5_inbound_lane_rejects_replayed_nonce_witness :
    receive_message ⟨[]⟩ ⟨3⟩ ⟨⟨0, 2⟩, some .parent⟩ = (.Rejected, ⟨3⟩) :=
  c5_inbound_lane_rejects_replayed_nonce ⟨[]⟩ ⟨3⟩ ⟨⟨0, 2⟩, some .parent⟩ (by decide)

/-- Claim C6: after any sequence of ledger operations (enqueue, delivery
confirmation, prune) on a lane starting from the fresh lane, the counters
satisfy oldest_unpruned_nonce ≤ latest_received_nonce + 1 ≤
latest_generated_nonce + 1. -/
theorem c6_ledger_invariant_preserved (ops : List LedgerOp) :
    laneInvariant (runOps LaneState.fresh ops).data := by
  have hbase : laneInvariant LaneState.fresh.data :=
    ⟨Nat.le_refl 1, Nat.le_refl 1⟩
  suffices hstep : ∀ (l : List LedgerOp) (st : LaneState),
      laneInvariant st.data → laneInvariant (runOps st l).data from
    hstep ops LaneState.fresh hbase
  intro l
  induction l with
  | nil => intro st hst; exact hst
  | cons op rest ih => intro st hst; exact ih _ (laneInvariant_applyOp st op hst)

/-- Claim C7: every successful enqueue emits exactly the one event
`MessageAccepted` carrying its lane and its assigned nonce. -/
theorem c7_enqueue_emits_single_message_accepted (lane : LaneId)
    (payload : List Nat) (st : LaneState) (r : EnqueueOk)
    (h : enqueue_outbound lane payload st = .ok r) :
    r.events = [.MessageAccepted lane r.nonce] := by
  rcases hd : st.data with ⟨o, rv, g⟩
  by_cases hg : u64Max ≤ g
  · rw [enqueue_outbound_eq_error lane payload st o rv g hd hg] at h
    cases h
  · rw [enqueue_outbound_eq_ok lane payload st o rv g hd hg] at h
    cases h
    rfl

/-- Witness for C7: the first enqueue on the fresh lane 0 emits exactly
`MessageAccepted 0 1`. -/
theorem c7_enqueue_emits_single_message_accepted_witness :
    (⟨1, ⟨some ⟨1, 0, 1⟩, [(1, [2])]⟩, [.MessageAccepted 0 1]⟩ : EnqueueOk).events =
      [.MessageAccepted 0 (⟨1, ⟨some ⟨1, 0, 1⟩, [(1, [2])]⟩,
        [.MessageAccepted 0 1]⟩ : EnqueueOk).nonce] :=
  c7_enqueue_emits_single_message_accepted 0 [2] LaneState.fresh
    ⟨1, ⟨some ⟨1, 0, 1⟩, [(1, [2])]⟩, [.MessageAccepted 0 1]⟩ (by rfl)

/-- Claim C8: delivery confirmation is idempotent: applying the same `up_to`
twice changes the lane state only once (the second application is a state
no-op), and any confirmation whose `up_to` is not greater than the current
`latest_received_nonce` is a no-op reported as `StaleConfirmation`, not an
error. -/
theorem c8_confirmation_idempotent (st : LaneState) (n : Nat) :
    (record_delivery_confirmation n (record_delivery_confirmation n st).2).2 =
      (record_delivery_confirmation n st).2 ∧
    (n ≤ st.data.latest_received_nonce →
      record_delivery_confirmation n st = (.StaleConfirmation, st)) := by
  rcases hd : st.data with ⟨o, rv, g⟩
  have hrv : st.data.latest_received_nonce = rv := by rw [hd]
  by_cases hc1 : n ≤ rv
  · have hs := record_delivery_confirmation_stale st o rv g n hd hc1
    exact ⟨by simp [hs], fun _ => hs⟩
  · by_cases hc2 : g < n
    · have hs := record_delivery_confirmation_future st o rv g n hd hc1 hc2
      exact ⟨by simp [hs], fun hn => absurd (hrv ▸ hn) hc1⟩
    · have hs := record_delivery_confirmation_advances st o rv g n hd hc1 hc2
      have hs2 := record_delivery_confirmation_stale
        (⟨some ⟨o, n, g⟩, st.stored⟩ : LaneState) o n g n rfl (Nat.le_refl n)
      exact ⟨by simp [hs, hs2], fun hn => absurd (hrv ▸ hn) hc1⟩

/-- Witness for C8: on a lane with counters 1, 3, 5, confirming up to 2 twice
leaves the state of one application, and the stale branch of the claim at that
input reports `StaleConfirmation` with the state untouched. -/
theorem c8_confirmation_idempotent_witness :
    ((record_delivery_confirmation 2
        (record_delivery_confirmation 2 ⟨some ⟨1, 3, 5⟩, []⟩).2).2 =
      (record_delivery_confirmation 2 (⟨some ⟨1, 3, 5⟩, []⟩ : LaneState)).2) ∧
    record_delivery_confirmation 2 ⟨some ⟨1, 3, 5⟩, []⟩ =
      (.StaleConfirmation, ⟨some ⟨1, 3, 5⟩, []⟩) :=
  ⟨(c8_confirmation_idempotent ⟨some ⟨1, 3, 5⟩, []⟩ 2).1,
   (c8_confirmation_idempotent ⟨some ⟨1, 3, 5⟩, []⟩ 2).2 (by decide)⟩

/-- Claim C9: an `ExportMessage` originating from a sibling system parachain is
admitted and enqueued even when the program claims `UnpaidExecution` and pays no
fee: starting from the fresh lane, execution succeeds, the lane counters become
1, 0, 1, the inner program is stored at nonce 1, and one `MessageAccepted` event
is emitted, as asserted by the unpaid branch of
`handle_export_message_from_system_parachain_to_outbound_queue_works`. -/
theorem c9_unpaid_export_from_system_parachain_enqueued (sib net : Nat)
    (inner : List Nat) :
    execute_xcm (.SiblingSystemParachain sib)
        [.UnpaidExecution, .ExportMessage net inner] LaneState.fresh =
      .ok (⟨some ⟨1, 0, 1⟩, [(1, inner)]⟩, [.MessageAccepted net 1]) := by
  rfl

/-- Claim C10: in the declared storage accesses of the bridge-hub router
benchmark, `send_message` performs exactly 1 read and 0 writes of
`XcmpQueue::DeliveryFeeFactor` (and 12 reads, 4 writes in total, matching its
weight body); no benchmarked call of the pallet — the periodic congestion checks
`on_initialize_when_non_congested` / `on_initialize_when_congested`,
`report_bridge_status`, or `send_message` itself — declares a write of that
factor, so enqueueing a message leaves it unchanged. -/
theorem c10_send_message_delivery_fee_factor_read_only :
    readsOf send_message_storage "XcmpQueue::DeliveryFeeFactor" = 1 ∧
    writesOf send_message_storage "XcmpQueue::DeliveryFeeFactor" = 0 ∧
    totalReads send_message_storage = 12 ∧
    totalWrites send_message_storage = 4 ∧
    writesOf on_initialize_when_non_congested_storage "XcmpQueue::DeliveryFeeFactor" = 0 ∧
    writesOf on_initialize_when_congested_storage "XcmpQueue::DeliveryFeeFactor" = 0 ∧
    writesOf report_bridge_status_storage "XcmpQueue::DeliveryFeeFactor" = 0 := by
  refine ⟨?_, ?_, ?_, ?_, ?_, ?_, ?_⟩ <;> rfl

end BridgeHub
